import Mathlib

/-!
Shallow embedding of the core of `kern-comm-lib` (Python):
`StatusCode` / `Status` / `StatusOr` error model, exception-to-code mapping,
the `Logger` handler pipeline, the logging initialization entry points, the
`ThreadingMutex.acquire` debug guard, and the traceback formatter.

Python objects are modelled as Lean structures; Python `None` is modelled with
`Option` (or an explicit `none` variant of a value universe); functions that
can terminate the process (`sys.exit`) return an explicit outcome type with a
`fatalExit` variant.  Mutex-guarded mutation of a logger's handler list is
modelled as sequential state passing over the handler list: each embedded
operation is the body of the corresponding Python method between acquiring
and releasing the relevant lock.
-/

namespace Kern

/-- `StatusCode` from `base/status_code.py`: an `IntEnum` with Google
canonical codes (0-16), the custom code `ZERO_DIVISION = -1`, and the band of
Python-exception-derived codes (100+). -/
inductive StatusCode
  | OK
  | CANCELLED
  | UNKNOWN
  | INVALID_ARGUMENT
  | DEADLINE_EXCEEDED
  | NOT_FOUND
  | ALREADY_EXISTS
  | PERMISSION_DENIED
  | RESOURCE_EXHAUSTED
  | FAILED_PRECONDITION
  | ABORTED
  | OUT_OF_RANGE
  | UNIMPLEMENTED
  | INTERNAL
  | UNAVAILABLE
  | DATA_LOSS
  | UNAUTHENTICATED
  | ZERO_DIVISION
  | ARITHMETIC_ERROR
  | ASSERTION_ERROR
  | ATTRIBUTE_ERROR
  | BLOCKING_IO_ERROR
  | BROKEN_PIPE_ERROR
  | BUFFER_ERROR
  | CHILD_PROCESS_ERROR
  | CONNECTION_ABORTED_ERROR
  | CONNECTION_ERROR
  | CONNECTION_REFUSED_ERROR
  | CONNECTION_RESET_ERROR
  | EOF_ERROR
  | FILE_EXISTS_ERROR
  | FILE_NOT_FOUND_ERROR
  | FLOATING_POINT_ERROR
  | GENERATOR_EXIT
  | IMPORT_ERROR
  | INDENTATION_ERROR
  | INDEX_ERROR
  | INTERRUPTED_ERROR
  | IS_A_DIRECTORY_ERROR
  | KEY_ERROR
  | KEYBOARD_INTERRUPT
  | LOOKUP_ERROR
  | MEMORY_ERROR
  | MODULE_NOT_FOUND_ERROR
  | NAME_ERROR
  | NOT_A_DIRECTORY_ERROR
  | NOT_IMPLEMENTED_ERROR
  | OS_ERROR
  | OVERFLOW_ERROR
  | PERMISSION_ERROR
  | PROCESS_LOOKUP_ERROR
  | RECURSION_ERROR
  | REFERENCE_ERROR
  | RUNTIME_ERROR
  | STOP_ASYNC_ITERATION
  | STOP_ITERATION
  | SYNTAX_ERROR
  | SYSTEM_ERROR
  | SYSTEM_EXIT
  | TAB_ERROR
  | TIMEOUT_ERROR
  | TYPE_ERROR
  | UNBOUND_LOCAL_ERROR
  | UNICODE_DECODE_ERROR
  | UNICODE_ENCODE_ERROR
  | UNICODE_ERROR
  | UNICODE_TRANSLATE_ERROR
  | VALUE_ERROR
  | ZERO_DIVISION_ERROR
deriving DecidableEq, Repr, Fintype

/-- The integer value of each `StatusCode` member, as declared in
`base/status_code.py`. -/
def StatusCode.toInt : StatusCode → Int
  | .OK => 0
  | .CANCELLED => 1
  | .UNKNOWN => 2
  | .INVALID_ARGUMENT => 3
  | .DEADLINE_EXCEEDED => 4
  | .NOT_FOUND => 5
  | .ALREADY_EXISTS => 6
  | .PERMISSION_DENIED => 7
  | .RESOURCE_EXHAUSTED => 8
  | .FAILED_PRECONDITION => 9
  | .ABORTED => 10
  | .OUT_OF_RANGE => 11
  | .UNIMPLEMENTED => 12
  | .INTERNAL => 13
  | .UNAVAILABLE => 14
  | .DATA_LOSS => 15
  | .UNAUTHENTICATED => 16
  | .ZERO_DIVISION => -1
  | .ARITHMETIC_ERROR => 100
  | .ASSERTION_ERROR => 101
  | .ATTRIBUTE_ERROR => 102
  | .BLOCKING_IO_ERROR => 103
  | .BROKEN_PIPE_ERROR => 104
  | .BUFFER_ERROR => 105
  | .CHILD_PROCESS_ERROR => 106
  | .CONNECTION_ABORTED_ERROR => 107
  | .CONNECTION_ERROR => 108
  | .CONNECTION_REFUSED_ERROR => 109
  | .CONNECTION_RESET_ERROR => 110
  | .EOF_ERROR => 111
  | .FILE_EXISTS_ERROR => 112
  | .FILE_NOT_FOUND_ERROR => 113
  | .FLOATING_POINT_ERROR => 114
  | .GENERATOR_EXIT => 115
  | .IMPORT_ERROR => 116
  | .INDENTATION_ERROR => 117
  | .INDEX_ERROR => 118
  | .INTERRUPTED_ERROR => 119
  | .IS_A_DIRECTORY_ERROR => 120
  | .KEY_ERROR => 121
  | .KEYBOARD_INTERRUPT => 122
  | .LOOKUP_ERROR => 123
  | .MEMORY_ERROR => 124
  | .MODULE_NOT_FOUND_ERROR => 125
  | .NAME_ERROR => 126
  | .NOT_A_DIRECTORY_ERROR => 127
  | .NOT_IMPLEMENTED_ERROR => 128
  | .OS_ERROR => 129
  | .OVERFLOW_ERROR => 130
  | .PERMISSION_ERROR => 131
  | .PROCESS_LOOKUP_ERROR => 132
  | .RECURSION_ERROR => 133
  | .REFERENCE_ERROR => 134
  | .RUNTIME_ERROR => 135
  | .STOP_ASYNC_ITERATION => 136
  | .STOP_ITERATION => 137
  | .SYNTAX_ERROR => 138
  | .SYSTEM_ERROR => 139
  | .SYSTEM_EXIT => 140
  | .TAB_ERROR => 141
  | .TIMEOUT_ERROR => 142
  | .TYPE_ERROR => 143
  | .UNBOUND_LOCAL_ERROR => 144
  | .UNICODE_DECODE_ERROR => 145
  | .UNICODE_ENCODE_ERROR => 146
  | .UNICODE_ERROR => 147
  | .UNICODE_TRANSLATE_ERROR => 148
  | .VALUE_ERROR => 149
  | .ZERO_DIVISION_ERROR => 150

/-- `member.name` of each `StatusCode` member (Python enum member name), used
by `Status.__str__`. -/
def StatusCode.pyName : StatusCode → String
  | .OK => "OK"
  | .CANCELLED => "CANCELLED"
  | .UNKNOWN => "UNKNOWN"
  | .INVALID_ARGUMENT => "INVALID_ARGUMENT"
  | .DEADLINE_EXCEEDED => "DEADLINE_EXCEEDED"
  | .NOT_FOUND => "NOT_FOUND"
  | .ALREADY_EXISTS => "ALREADY_EXISTS"
  | .PERMISSION_DENIED => "PERMISSION_DENIED"
  | .RESOURCE_EXHAUSTED => "RESOURCE_EXHAUSTED"
  | .FAILED_PRECONDITION => "FAILED_PRECONDITION"
  | .ABORTED => "ABORTED"
  | .OUT_OF_RANGE => "OUT_OF_RANGE"
  | .UNIMPLEMENTED => "UNIMPLEMENTED"
  | .INTERNAL => "INTERNAL"
  | .UNAVAILABLE => "UNAVAILABLE"
  | .DATA_LOSS => "DATA_LOSS"
  | .UNAUTHENTICATED => "UNAUTHENTICATED"
  | .ZERO_DIVISION => "ZERO_DIVISION"
  | .ARITHMETIC_ERROR => "ARITHMETIC_ERROR"
  | .ASSERTION_ERROR => "ASSERTION_ERROR"
  | .ATTRIBUTE_ERROR => "ATTRIBUTE_ERROR"
  | .BLOCKING_IO_ERROR => "BLOCKING_IO_ERROR"
  | .BROKEN_PIPE_ERROR => "BROKEN_PIPE_ERROR"
  | .BUFFER_ERROR => "BUFFER_ERROR"
  | .CHILD_PROCESS_ERROR => "CHILD_PROCESS_ERROR"
  | .CONNECTION_ABORTED_ERROR => "CONNECTION_ABORTED_ERROR"
  | .CONNECTION_ERROR => "CONNECTION_ERROR"
  | .CONNECTION_REFUSED_ERROR => "CONNECTION_REFUSED_ERROR"
  | .CONNECTION_RESET_ERROR => "CONNECTION_RESET_ERROR"
  | .EOF_ERROR => "EOF_ERROR"
  | .FILE_EXISTS_ERROR => "FILE_EXISTS_ERROR"
  | .FILE_NOT_FOUND_ERROR => "FILE_NOT_FOUND_ERROR"
  | .FLOATING_POINT_ERROR => "FLOATING_POINT_ERROR"
  | .GENERATOR_EXIT => "GENERATOR_EXIT"
  | .IMPORT_ERROR => "IMPORT_ERROR"
  | .INDENTATION_ERROR => "INDENTATION_ERROR"
  | .INDEX_ERROR => "INDEX_ERROR"
  | .INTERRUPTED_ERROR => "INTERRUPTED_ERROR"
  | .IS_A_DIRECTORY_ERROR => "IS_A_DIRECTORY_ERROR"
  | .KEY_ERROR => "KEY_ERROR"
  | .KEYBOARD_INTERRUPT => "KEYBOARD_INTERRUPT"
  | .LOOKUP_ERROR => "LOOKUP_ERROR"
  | .MEMORY_ERROR => "MEMORY_ERROR"
  | .MODULE_NOT_FOUND_ERROR => "MODULE_NOT_FOUND_ERROR"
  | .NAME_ERROR => "NAME_ERROR"
  | .NOT_A_DIRECTORY_ERROR => "NOT_A_DIRECTORY_ERROR"
  | .NOT_IMPLEMENTED_ERROR => "NOT_IMPLEMENTED_ERROR"
  | .OS_ERROR => "OS_ERROR"
  | .OVERFLOW_ERROR => "OVERFLOW_ERROR"
  | .PERMISSION_ERROR => "PERMISSION_ERROR"
  | .PROCESS_LOOKUP_ERROR => "PROCESS_LOOKUP_ERROR"
  | .RECURSION_ERROR => "RECURSION_ERROR"
  | .REFERENCE_ERROR => "REFERENCE_ERROR"
  | .RUNTIME_ERROR => "RUNTIME_ERROR"
  | .STOP_ASYNC_ITERATION => "STOP_ASYNC_ITERATION"
  | .STOP_ITERATION => "STOP_ITERATION"
  | .SYNTAX_ERROR => "SYNTAX_ERROR"
  | .SYSTEM_ERROR => "SYSTEM_ERROR"
  | .SYSTEM_EXIT => "SYSTEM_EXIT"
  | .TAB_ERROR => "TAB_ERROR"
  | .TIMEOUT_ERROR => "TIMEOUT_ERROR"
  | .TYPE_ERROR => "TYPE_ERROR"
  | .UNBOUND_LOCAL_ERROR => "UNBOUND_LOCAL_ERROR"
  | .UNICODE_DECODE_ERROR => "UNICODE_DECODE_ERROR"
  | .UNICODE_ENCODE_ERROR => "UNICODE_ENCODE_ERROR"
  | .UNICODE_ERROR => "UNICODE_ERROR"
  | .UNICODE_TRANSLATE_ERROR => "UNICODE_TRANSLATE_ERROR"
  | .VALUE_ERROR => "VALUE_ERROR"
  | .ZERO_DIVISION_ERROR => "ZERO_DIVISION_ERROR"

/-- `Status` from `base/status/status.py`: a status code, an optional message
and an optional traceback string (Python `None` is `Option.none`). -/
structure Status where
  status_code : StatusCode
  message : Option String
  traceback : Option String
deriving DecidableEq, Repr

/-- `Status()` with default arguments: code `OK`, no message, no traceback
(`Status.__init__` defaults). -/
def Status.default : Status := ⟨.OK, none, none⟩

/-- `Status(a_status_code, a_message)` / `Status.from_status_code`: explicit
code and message, traceback starts as `None`. -/
def Status.from_status_code (c : StatusCode) (m : Option String) : Status :=
  ⟨c, m, none⟩

/-- `Status.ok()`: true iff the code equals `StatusCode.OK`. -/
def Status.ok (s : Status) : Bool := s.status_code == .OK

/-- Python truthiness of an `Optional[str]`: `None` and the empty string are
falsy, every other string is truthy (`if self._message` in `Status.__str__`). -/
def pyTruthyOptStr : Option String → Bool
  | none => false
  | some m => m ≠ ""

/-- `Status.__str__`: `"OK"` when `ok()`, else
`f"{code.name}: {message}"` if the message is truthy, else `code.name`. -/
def Status.strForm (s : Status) : String :=
  if s.ok then "OK"
  else if pyTruthyOptStr s.message then
    s.status_code.pyName ++ ": " ++ s.message.getD ""
  else s.status_code.pyName

/-- The Python exception classes relevant to `base/status_code.py`: every key
of `EXCEPTION_TO_STATUS_CODE`, their common ancestors `Exception` and
`BaseException`, and two user-defined classes standing for the open world of
exception types that are absent from the table (`CustomError` mirrors the
`CustomException` of `tests/test_status_code.py`, a direct subclass of
`Exception`; `CustomValueError` is a direct subclass of `ValueError`). -/
inductive ExcType
  | BaseException
  | Exception
  | ArithmeticError
  | AssertionError
  | AttributeError
  | BlockingIOError
  | BrokenPipeError
  | BufferError
  | ChildProcessError
  | ConnectionAbortedError
  | ConnectionError
  | ConnectionRefusedError
  | ConnectionResetError
  | EOFError
  | FileExistsError
  | FileNotFoundError
  | FloatingPointError
  | GeneratorExit
  | ImportError
  | IndentationError
  | IndexError
  | InterruptedError
  | IsADirectoryError
  | KeyError
  | KeyboardInterrupt
  | LookupError
  | MemoryError
  | ModuleNotFoundError
  | NameError
  | NotADirectoryError
  | NotImplementedError
  | OSError
  | OverflowError
  | PermissionError
  | ProcessLookupError
  | RecursionError
  | ReferenceError
  | RuntimeError
  | StopAsyncIteration
  | StopIteration
  | SyntaxError
  | SystemError
  | SystemExit
  | TabError
  | TimeoutError
  | TypeError
  | UnboundLocalError
  | UnicodeDecodeError
  | UnicodeEncodeError
  | UnicodeError
  | UnicodeTranslateError
  | ValueError
  | ZeroDivisionError
  | CustomError
  | CustomValueError
deriving DecidableEq, Repr, Fintype

/-- The direct base class of each exception class, per CPython's builtin
exception hierarchy (`BaseException` has no base). -/
def ExcType.parent : ExcType → Option ExcType
  | .BaseException => none
  | .Exception => some .BaseException
  | .ArithmeticError => some .Exception
  | .AssertionError => some .Exception
  | .AttributeError => some .Exception
  | .BlockingIOError => some .OSError
  | .BrokenPipeError => some .ConnectionError
  | .BufferError => some .Exception
  | .ChildProcessError => some .OSError
  | .ConnectionAbortedError => some .ConnectionError
  | .ConnectionError => some .OSError
  | .ConnectionRefusedError => some .ConnectionError
  | .ConnectionResetError => some .ConnectionError
  | .EOFError => some .Exception
  | .FileExistsError => some .OSError
  | .FileNotFoundError => some .OSError
  | .FloatingPointError => some .ArithmeticError
  | .GeneratorExit => some .BaseException
  | .ImportError => some .Exception
  | .IndentationError => some .SyntaxError
  | .IndexError => some .LookupError
  | .InterruptedError => some .OSError
  | .IsADirectoryError => some .OSError
  | .KeyError => some .LookupError
  | .KeyboardInterrupt => some .BaseException
  | .LookupError => some .Exception
  | .MemoryError => some .Exception
  | .ModuleNotFoundError => some .ImportError
  | .NameError => some .Exception
  | .NotADirectoryError => some .OSError
  | .NotImplementedError => some .RuntimeError
  | .OSError => some .Exception
  | .OverflowError => some .ArithmeticError
  | .PermissionError => some .OSError
  | .ProcessLookupError => some .OSError
  | .RecursionError => some .RuntimeError
  | .ReferenceError => some .Exception
  | .RuntimeError => some .Exception
  | .StopAsyncIteration => some .Exception
  | .StopIteration => some .Exception
  | .SyntaxError => some .Exception
  | .SystemError => some .Exception
  | .SystemExit => some .BaseException
  | .TabError => some .IndentationError
  | .TimeoutError => some .OSError
  | .TypeError => some .Exception
  | .UnboundLocalError => some .NameError
  | .UnicodeDecodeError => some .UnicodeError
  | .UnicodeEncodeError => some .UnicodeError
  | .UnicodeError => some .ValueError
  | .UnicodeTranslateError => some .UnicodeError
  | .ValueError => some .Exception
  | .ZeroDivisionError => some .ArithmeticError
  | .CustomError => some .Exception
  | .CustomValueError => some .ValueError

/-- The class and its base classes, walking `parent` with explicit fuel (the
CPython hierarchy above has depth at most 6, so fuel 8 is exact). -/
def ExcType.ancestorsAux : Nat → ExcType → List ExcType
  | 0, _ => []
  | fuel + 1, t =>
    t :: (match t.parent with
      | none => []
      | some p => ExcType.ancestorsAux fuel p)

/-- All classes `u` with `issubclass(t, u)`. -/
def ExcType.ancestors (t : ExcType) : List ExcType :=
  ExcType.ancestorsAux 8 t

/-- `isinstance(e, u)` for an exception `e` whose exact runtime class is `t`. -/
def isInstanceOf (t u : ExcType) : Bool :=
  (ExcType.ancestors t).contains u

/-- `EXCEPTION_TO_STATUS_CODE` from `base/status_code.py`, as the
insertion-ordered association list that a Python `dict` is (keys are unique
and iteration follows declaration order). -/
def EXCEPTION_TO_STATUS_CODE : List (ExcType × StatusCode) := [
  (.ArithmeticError, .ARITHMETIC_ERROR),
  (.AssertionError, .ASSERTION_ERROR),
  (.AttributeError, .ATTRIBUTE_ERROR),
  (.BlockingIOError, .BLOCKING_IO_ERROR),
  (.BrokenPipeError, .BROKEN_PIPE_ERROR),
  (.BufferError, .BUFFER_ERROR),
  (.ChildProcessError, .CHILD_PROCESS_ERROR),
  (.ConnectionAbortedError, .CONNECTION_ABORTED_ERROR),
  (.ConnectionError, .CONNECTION_ERROR),
  (.ConnectionRefusedError, .CONNECTION_REFUSED_ERROR),
  (.ConnectionResetError, .CONNECTION_RESET_ERROR),
  (.EOFError, .EOF_ERROR),
  (.FileExistsError, .FILE_EXISTS_ERROR),
  (.FileNotFoundError, .FILE_NOT_FOUND_ERROR),
  (.FloatingPointError, .FLOATING_POINT_ERROR),
  (.GeneratorExit, .GENERATOR_EXIT),
  (.ImportError, .IMPORT_ERROR),
  (.IndentationError, .INDENTATION_ERROR),
  (.IndexError, .INDEX_ERROR),
  (.InterruptedError, .INTERRUPTED_ERROR),
  (.IsADirectoryError, .IS_A_DIRECTORY_ERROR),
  (.KeyError, .KEY_ERROR),
  (.KeyboardInterrupt, .KEYBOARD_INTERRUPT),
  (.LookupError, .LOOKUP_ERROR),
  (.MemoryError, .MEMORY_ERROR),
  (.ModuleNotFoundError, .MODULE_NOT_FOUND_ERROR),
  (.NameError, .NAME_ERROR),
  (.NotADirectoryError, .NOT_A_DIRECTORY_ERROR),
  (.NotImplementedError, .NOT_IMPLEMENTED_ERROR),
  (.OSError, .OS_ERROR),
  (.OverflowError, .OVERFLOW_ERROR),
  (.PermissionError, .PERMISSION_ERROR),
  (.ProcessLookupError, .PROCESS_LOOKUP_ERROR),
  (.RecursionError, .RECURSION_ERROR),
  (.ReferenceError, .REFERENCE_ERROR),
  (.RuntimeError, .RUNTIME_ERROR),
  (.StopAsyncIteration, .STOP_ASYNC_ITERATION),
  (.StopIteration, .STOP_ITERATION),
  (.SyntaxError, .SYNTAX_ERROR),
  (.SystemError, .SYSTEM_ERROR),
  (.SystemExit, .SYSTEM_EXIT),
  (.TabError, .TAB_ERROR),
  (.TimeoutError, .TIMEOUT_ERROR),
  (.TypeError, .TYPE_ERROR),
  (.UnboundLocalError, .UNBOUND_LOCAL_ERROR),
  (.UnicodeDecodeError, .UNICODE_DECODE_ERROR),
  (.UnicodeEncodeError, .UNICODE_ENCODE_ERROR),
  (.UnicodeError, .UNICODE_ERROR),
  (.UnicodeTranslateError, .UNICODE_TRANSLATE_ERROR),
  (.ValueError, .VALUE_ERROR),
  (.ZeroDivisionError, .ZERO_DIVISION_ERROR)]

/-- The `dict` exact-key lookup `EXCEPTION_TO_STATUS_CODE[exception_type]`
(keys are unique, so the first association is the association). -/
def exactLookup (t : ExcType) : Option StatusCode :=
  (EXCEPTION_TO_STATUS_CODE.find? (fun p => p.1 == t)).map (·.2)

/-- `get_status_code_for_exception` from `base/status_code.py`, for an
exception whose exact runtime class is `t`: direct type lookup in the dict,
else the first entry in declaration order whose key the exception is an
instance of, else `UNKNOWN`. -/
def get_status_code_for_exception (t : ExcType) : StatusCode :=
  match exactLookup t with
  | some c => c
  | none =>
    match EXCEPTION_TO_STATUS_CODE.find? (fun p => isInstanceOf t p.1) with
    | some p => p.2
    | none => .UNKNOWN

/-- An exception object as `format_exception_traceback` consumes one: its
exact runtime class, `str(e)`, and `e.__traceback__` — `none` when the
exception was never raised, otherwise the formatted stack-frame lines. -/
structure PyException where
  etype : ExcType
  msg : String
  tb : Option (List String)

/-- `cls.__name__` of each exception class. -/
def ExcType.pyName : ExcType → String
  | .BaseException => "BaseException"
  | .Exception => "Exception"
  | .ArithmeticError => "ArithmeticError"
  | .AssertionError => "AssertionError"
  | .AttributeError => "AttributeError"
  | .BlockingIOError => "BlockingIOError"
  | .BrokenPipeError => "BrokenPipeError"
  | .BufferError => "BufferError"
  | .ChildProcessError => "ChildProcessError"
  | .ConnectionAbortedError => "ConnectionAbortedError"
  | .ConnectionError => "ConnectionError"
  | .ConnectionRefusedError => "ConnectionRefusedError"
  | .ConnectionResetError => "ConnectionResetError"
  | .EOFError => "EOFError"
  | .FileExistsError => "FileExistsError"
  | .FileNotFoundError => "FileNotFoundError"
  | .FloatingPointError => "FloatingPointError"
  | .GeneratorExit => "GeneratorExit"
  | .ImportError => "ImportError"
  | .IndentationError => "IndentationError"
  | .IndexError => "IndexError"
  | .InterruptedError => "InterruptedError"
  | .IsADirectoryError => "IsADirectoryError"
  | .KeyError => "KeyError"
  | .KeyboardInterrupt => "KeyboardInterrupt"
  | .LookupError => "LookupError"
  | .MemoryError => "MemoryError"
  | .ModuleNotFoundError => "ModuleNotFoundError"
  | .NameError => "NameError"
  | .NotADirectoryError => "NotADirectoryError"
  | .NotImplementedError => "NotImplementedError"
  | .OSError => "OSError"
  | .OverflowError => "OverflowError"
  | .PermissionError => "PermissionError"
  | .ProcessLookupError => "ProcessLookupError"
  | .RecursionError => "RecursionError"
  | .ReferenceError => "ReferenceError"
  | .RuntimeError => "RuntimeError"
  | .StopAsyncIteration => "StopAsyncIteration"
  | .StopIteration => "StopIteration"
  | .SyntaxError => "SyntaxError"
  | .SystemError => "SystemError"
  | .SystemExit => "SystemExit"
  | .TabError => "TabError"
  | .TimeoutError => "TimeoutError"
  | .TypeError => "TypeError"
  | .UnboundLocalError => "UnboundLocalError"
  | .UnicodeDecodeError => "UnicodeDecodeError"
  | .UnicodeEncodeError => "UnicodeEncodeError"
  | .UnicodeError => "UnicodeError"
  | .UnicodeTranslateError => "UnicodeTranslateError"
  | .ValueError => "ValueError"
  | .ZeroDivisionError => "ZeroDivisionError"
  | .CustomError => "CustomError"
  | .CustomValueError => "CustomValueError"

/-- The final line of a formatted exception: `"{type.__name__}: {msg}\n"`, or
just the type name when `str(e)` is empty (CPython's rendering). -/
def excLine (t : ExcType) (msg : String) : String :=
  if msg = "" then t.pyName ++ "\n" else t.pyName ++ ": " ++ msg ++ "\n"

/-- Modelled from CPython's `traceback.format_exception(type(e), e, tb)`
(the stdlib call made by `format_exception_traceback`): with no traceback the
output is only the exception line; with a traceback it is the header
`"Traceback (most recent call last):\n"`, the frame lines, then the
exception line. -/
def pyFormatException (t : ExcType) (msg : String) (tb : Option (List String)) :
    List String :=
  match tb with
  | none => [excLine t msg]
  | some frames => "Traceback (most recent call last):\n" :: (frames ++ [excLine t msg])

/-- `"".join(pieces)` — string concatenation in order. -/
def joinStrings (pieces : List String) : String :=
  pieces.foldr (fun a b => a ++ b) ""

/-- `format_exception_traceback` from `base/status_code.py`:
`"".join(traceback.format_exception(type(e), e, e.__traceback__))`. -/
def format_exception_traceback (e : PyException) : String :=
  joinStrings (pyFormatException e.etype e.msg e.tb)

/-- Type tags a caller can pass as `StatusOr`'s first argument (`a_type`). -/
inductive PyType
  | intT
  | strT
  | boolT
  | floatT
deriving DecidableEq, Repr

/-- Python runtime values relevant to `StatusOr.__init__`'s second argument
(`object | Status`): `none` is Python's `None`, `status` is a `Status`
instance, the rest are ordinary payload values. -/
inductive PyVal
  | none
  | int (n : Int)
  | str (s : String)
  | boolean (b : Bool)
  | float (q : ℚ)
  | status (st : Status)
deriving DecidableEq, Repr

/-- `a_type.__name__`. -/
def PyType.pyName : PyType → String
  | .intT => "int"
  | .strT => "str"
  | .boolT => "bool"
  | .floatT => "float"

/-- `type(v).__name__` for the modelled values. -/
def PyVal.typeName : PyVal → String
  | .none => "NoneType"
  | .int _ => "int"
  | .str _ => "str"
  | .boolean _ => "bool"
  | .float _ => "float"
  | .status _ => "Status"

/-- `isinstance(v, t)` for the modelled values and tags; `bool` is a subclass
of `int` in Python, so a boolean is an instance of `int`. -/
def pyIsInstance : PyVal → PyType → Bool
  | .int _, .intT => true
  | .boolean _, .intT => true
  | .boolean _, .boolT => true
  | .str _, .strT => true
  | .float _, .floatT => true
  | _, _ => false

/-- `StatusOr` from `base/status/status_or.py`: the expected type tag, the
stored value (`PyVal.none` doubles as Python's `None`, exactly as `_val` does
in the source), and the embedded `Status`. -/
structure StatusOr where
  _type : PyType
  _val : PyVal
  _status : Status
deriving DecidableEq, Repr

/-- The outcome of running `StatusOr.__init__`: either a constructed object,
or `sys.exit(exit_code)` after printing `diagnostic`. -/
inductive StatusOrInitResult
  | ok (so : StatusOr)
  | fatalExit (exit_code : Nat) (diagnostic : String)
deriving DecidableEq, Repr

/-- `StatusOr.__init__(a_type, a_val_or_status)`: a `Status` argument is
stored with `_val = None`; otherwise a non-`None` value that is not an
instance of `a_type` prints a diagnostic and exits with code 1; otherwise the
value is stored with an OK status. -/
def StatusOr.init (a_type : PyType) (a_val_or_status : PyVal) :
    StatusOrInitResult :=
  match a_val_or_status with
  | .status st => .ok ⟨a_type, .none, st⟩
  | v =>
    if v != .none && !pyIsInstance v a_type then
      .fatalExit 1
        ("Expected value of type " ++ a_type.pyName ++ ", got " ++ v.typeName)
    else .ok ⟨a_type, v, Status.default⟩

/-- `StatusOr.ok()`: `self._status.status_code() is StatusCode.OK`. -/
def StatusOr.isOk (so : StatusOr) : Bool := so._status.status_code == .OK

/-- `StatusOr.val()` accessor. -/
def StatusOr.val (so : StatusOr) : PyVal := so._val

/-- `StatusOr.status()` accessor. -/
def StatusOr.statusOf (so : StatusOr) : Status := so._status

/-- `LogSeverity` from `base/log/log_severity.py`. -/
inductive LogSeverity
  | INFO
  | WARNING
  | ERROR
  | FATAL
deriving DecidableEq, Repr

/-- What a `ConsoleLogHandler` or `FileLogHandler` is from the `Logger`'s
point of view (`ILogHandler`): an identity (`hid`, standing for the Python
object identity that `in` / `remove` compare by), the `Status` its `handle()`
returns for a given severity and message, and the `Status` its `close()`
returns.  I/O performed inside `handle`/`close` is outside the `Logger`
contract and is abstracted away. -/
structure LogHandler where
  hid : Nat
  handleFn : LogSeverity → String → Status
  closeRes : Status

/-- `handler in self._handlers` — membership by object identity. -/
def hasHandler (l : List LogHandler) (h : LogHandler) : Bool :=
  l.any (fun g => g.hid == h.hid)

/-- `self._handlers.remove(handler)` — drop the first occurrence. -/
def removeFirstHandler : List LogHandler → LogHandler → List LogHandler
  | [], _ => []
  | g :: rest, h =>
    if g.hid == h.hid then rest else g :: removeFirstHandler rest h

/-- `Logger.add_handler` (`base/log/logger.py`), as the mutex-guarded body:
append the handler unless it is already present; returns the new handler list
and the returned `Status` (always `Status()` — the `except` arm only fires on
a mutex failure, which the embedded mutex does not produce). -/
def Logger.add_handler (l : List LogHandler) (h : LogHandler) :
    List LogHandler × Status :=
  if hasHandler l h then (l, Status.default) else (l ++ [h], Status.default)

/-- `Logger.remove_handler`: remove the handler if present, else do nothing;
returns `Status()` either way. -/
def Logger.remove_handler (l : List LogHandler) (h : LogHandler) :
    List LogHandler × Status :=
  if hasHandler l h then (removeFirstHandler l h, Status.default)
  else (l, Status.default)

/-- The loop of `Logger.close_all_handlers`: call `close()` on each handler
in order; a non-OK result is returned at once.  Yields the resulting `Status`
and the ids of the handlers whose `close()` was invoked. -/
def closeAllLoop : List LogHandler → Status × List Nat
  | [] => (Status.default, [])
  | h :: rest =>
    if h.closeRes.ok then
      let r := closeAllLoop rest
      (r.1, h.hid :: r.2)
    else (h.closeRes, [h.hid])

/-- `Logger.close_all_handlers`: run the close loop; only when every close
succeeded is `self._handlers.clear()` reached (a failing close returns early,
leaving the list as it was).  Yields the `Status`, the closed ids, and the
handler list afterwards. -/
def Logger.close_all_handlers (l : List LogHandler) :
    Status × List Nat × List LogHandler :=
  let r := closeAllLoop l
  if r.1.ok then (r.1, r.2, []) else (r.1, r.2, l)

/-- The `Status` returned by `Logger.log` on an empty handler list. -/
def noHandlersStatus : Status :=
  Status.from_status_code .NOT_FOUND (some "No handlers configured")

/-- The dispatch loop of `Logger.log`, run on the snapshot outside the lock:
invoke `handle()` on each handler in list order; the first non-OK status is
returned and the remaining handlers are not invoked.  Yields the resulting
`Status` and the ids of the handlers that were invoked. -/
def logDispatch : List LogHandler → LogSeverity → String → Status × List Nat
  | [], _, _ => (Status.default, [])
  | h :: rest, sev, msg =>
    let st := h.handleFn sev msg
    if st.ok then
      let r := logDispatch rest sev msg
      (r.1, h.hid :: r.2)
    else (st, [h.hid])

/-- `Logger.log(severity, message)`: under the lock, return `NOT_FOUND` if the
handler list is empty, else snapshot it (`self._handlers.copy()`); then
dispatch on the snapshot outside the lock. -/
def Logger.log (l : List LogHandler) (sev : LogSeverity) (msg : String) :
    Status × List Nat :=
  if l.isEmpty then (noHandlersStatus, [])
  else logDispatch l sev msg

/-- `ConsoleLogHandler()` — a fresh handler object (fresh identity `i`); its
`handle` writes to stdout and returns `Status()` on the success path, its
inherited `close` returns `Status()`. -/
def mkConsoleHandler (i : Nat) : LogHandler :=
  ⟨i, fun _ _ => Status.default, Status.default⟩

/-- `FileLogHandler(path)` with the file opened — fresh identity `i`; `handle`
writes `"[SEVERITY] message\n"` and returns `Status()` on the success path,
`close` closes the file and returns `Status()`. -/
def mkFileHandler (i : Nat) (_path : String) : LogHandler :=
  ⟨i, fun _ _ => Status.default, Status.default⟩

/-- The module-level mutable state of `base/log/log.py` and the logger
instances it touches: the `_initialized` flag, the default logger's handler
list, the calling thread's thread-local logger's handler list, and a counter
producing fresh Python object identities. -/
structure LogModuleState where
  initialized : Bool
  defaultHandlers : List LogHandler
  threadHandlers : List LogHandler
  nextId : Nat

/-- Process start: flag down, no handlers anywhere. -/
def LogModuleState.start : LogModuleState := ⟨false, [], [], 0⟩

/-- `Status.from_exception(e)` for the `OSError` that `os.makedirs` raised:
code `OS_ERROR` (the exact table entry for `OSError`), `str(e)` as message,
and a formatted traceback. -/
def makedirsFailStatus (e : PyException) : Status :=
  ⟨get_status_code_for_exception e.etype, some e.msg,
    some (format_exception_traceback e)⟩

/-- `init_kern_logging(program_name, log_dir)` from `base/log/log.py`.
`mkdirFault = none` means `os.makedirs` succeeds; `some e` means it raises
`e`, which the `except` arm converts with `Status.from_exception` and returns
— without setting `_initialized`.  (`FileLogHandler.__init__` terminates the
process on an open failure rather than raising, so it contributes no
recoverable branch here.)  Returns the `Status` and the new state. -/
def init_kern_logging (st : LogModuleState) (program_name : String)
    (log_dir : String) (mkdirFault : Option PyException) :
    Status × LogModuleState :=
  if st.initialized then (Status.default, st)
  else
    let console := mkConsoleHandler st.nextId
    let r := Logger.add_handler st.defaultHandlers console
    let st1 := { st with defaultHandlers := r.1, nextId := st.nextId + 1 }
    if !r.2.ok then (r.2, st1)
    else if log_dir != "" then
      match mkdirFault with
      | some e => (makedirsFailStatus e, st1)
      | none =>
        let fileH := mkFileHandler st1.nextId
          (log_dir ++ "/" ++ program_name ++ ".log")
        let r2 := Logger.add_handler st1.defaultHandlers fileH
        let st2 := { st1 with defaultHandlers := r2.1, nextId := st1.nextId + 1 }
        if !r2.2.ok then (r2.2, st2)
        else (Status.default, { st2 with initialized := true })
    else (Status.default, { st1 with initialized := true })

/-- `init_thread_specific_kern_logging(log_dir)` from `base/log/log.py`: the
same attach sequence against the calling thread's logger — with no
`_initialized` guard anywhere. -/
def init_thread_specific_kern_logging (st : LogModuleState) (logger_name : String)
    (log_dir : String) (mkdirFault : Option PyException) :
    Status × LogModuleState :=
  let console := mkConsoleHandler st.nextId
  let r := Logger.add_handler st.threadHandlers console
  let st1 := { st with threadHandlers := r.1, nextId := st.nextId + 1 }
  if !r.2.ok then (r.2, st1)
  else if log_dir != "" then
    match mkdirFault with
    | some e => (makedirsFailStatus e, st1)
    | none =>
      let fileH := mkFileHandler st1.nextId
        (log_dir ++ "/" ++ logger_name ++ ".log")
      let r2 := Logger.add_handler st1.threadHandlers fileH
      let st2 := { st1 with threadHandlers := r2.1, nextId := st1.nextId + 1 }
      if !r2.2.ok then (r2.2, st2)
      else (Status.default, st2)
  else (Status.default, st1)

/-- The outcome of running `ThreadingMutex.acquire`: either `sys.exit(1)`
from a firing `DCHECK`, or the value the underlying `RLock.acquire` call
returned. -/
inductive AcquireResult
  | fatalExit (exit_code : Nat) (diagnostic : String)
  | lockResult (acquired : Bool)
deriving DecidableEq, Repr

/-- `DCHECK_GREATER_THAN(val, cond_val)` from `base/log/check.py`: in debug
mode it prints and exits exactly when `val > cond_val` (the guard fires when
the value IS greater than the bound). -/
def dcheckGreaterThanFires (dbg : Bool) (val bound : ℚ) : Bool :=
  dbg && decide (val > bound)

/-- The diagnostic `DCHECK_GREATER_THAN` prints before exiting (the
`{filename}:{lineno}` prefix recovered from the call stack is not modelled). -/
def dcheckGreaterThanDiag (bound : ℚ) : String :=
  "FATAL ERROR: Value MUST be greater than " ++ toString bound

/-- `ThreadingMutex.acquire(blocking, timeout)` from `base/threads/mutex.py`,
with `dbg` standing for Python's `__debug__` and `lockRes` for the value the
underlying `threading.RLock.acquire(blocking, timeout)` call would return.
`DCHECK_NOT_NONE(blocking)` and `DCHECK_NOT_NONE(timeout)` never fire (both
arguments are typed non-`None`); `DCHECK_GREATER_THAN(timeout, 0)` exits when
`timeout > 0` in debug mode; only then is the underlying lock acquired. -/
def ThreadingMutex.acquire (dbg : Bool) (lockRes : Bool) (_blocking : Bool)
    (timeout : ℚ) : AcquireResult :=
  if dcheckGreaterThanFires dbg timeout 0 then
    .fatalExit 1 (dcheckGreaterThanDiag 0)
  else .lockResult lockRes

theorem statusCode_beq_ok_false {c : StatusCode} (h : c ≠ .OK) :
    (c == StatusCode.OK) = false :=
  beq_eq_false_iff_ne.mpr h

theorem logDispatch_all_ok (sev : LogSeverity) (msg : String) :
    ∀ l : List LogHandler, (∀ h ∈ l, (h.handleFn sev msg).ok = true) →
      logDispatch l sev msg = (Status.default, l.map (·.hid)) := by
  intro l
  induction l with
  | nil => intro _; rfl
  | cons h rest ih =>
    intro hall
    have hh : (h.handleFn sev msg).ok = true := hall h (by simp)
    have hr := ih (fun g hg => hall g (by simp [hg]))
    simp [logDispatch, hh, hr]

theorem logDispatch_first_fail (sev : LogSeverity) (msg : String) :
    ∀ (pre : List LogHandler) (f : LogHandler) (post : List LogHandler),
      (∀ h ∈ pre, (h.handleFn sev msg).ok = true) →
      (f.handleFn sev msg).ok = false →
      logDispatch (pre ++ f :: post) sev msg =
        (f.handleFn sev msg, pre.map (·.hid) ++ [f.hid]) := by
  intro pre
  induction pre with
  | nil =>
    intro f post _ hf
    simp [logDispatch, hf]
  | cons h rest ih =>
    intro f post hall hf
    have hh : (h.handleFn sev msg).ok = true := hall h (by simp)
    have hr := ih f post (fun g hg => hall g (by simp [hg])) hf
    simp [logDispatch, hh, hr]

theorem closeAllLoop_all_ok :
    ∀ l : List LogHandler, (∀ h ∈ l, h.closeRes.ok = true) →
      closeAllLoop l = (Status.default, l.map (·.hid)) := by
  intro l
  induction l with
  | nil => intro _; rfl
  | cons h rest ih =>
    intro hall
    have hh : h.closeRes.ok = true := hall h (by simp)
    have hr := ih (fun g hg => hall g (by simp [hg]))
    simp [closeAllLoop, hh, hr]

theorem closeAllLoop_first_fail :
    ∀ (pre : List LogHandler) (f : LogHandler) (post : List LogHandler),
      (∀ h ∈ pre, h.closeRes.ok = true) → f.closeRes.ok = false →
      closeAllLoop (pre ++ f :: post) = (f.closeRes, pre.map (·.hid) ++ [f.hid]) := by
  intro pre
  induction pre with
  | nil =>
    intro f post _ hf
    simp [closeAllLoop, hf]
  | cons h rest ih =>
    intro f post hall hf
    have hh : h.closeRes.ok = true := hall h (by simp)
    have hr := ih f post (fun g hg => hall g (by simp [hg])) hf
    simp [closeAllLoop, hh, hr]

end Kern

open Kern

/-- C3 counterexample: the claim says a present message `m` always yields the
string form `"<c.name>: <m>"`, but `Status.__str__` tests Python truthiness,
so a present-but-empty message yields just the code name:
`str(Status(CANCELLED, ""))` is `"CANCELLED"`, not `"CANCELLED: "`. -/
theorem c3_status_strform_counterexample :
    Status.strForm ⟨.CANCELLED, some "", none⟩ = "CANCELLED" ∧
      "CANCELLED" ≠ "CANCELLED: " := by
  refine ⟨rfl, ?_⟩
  intro h
  have h2 := congrArg String.data h
  simp at h2

/-- C3 (amended): a `Status` constructed with default arguments has
`ok() = true`, an absent message and string form `"OK"`; for a non-OK code
`c`, the string form is `"<c.name>: <m>"` when the message is present and
non-empty, and `"<c.name>"` when the message is absent or empty. -/
theorem c3_status_strform_amended :
    (Status.default.ok = true ∧ Status.default.message = none ∧
      Status.default.strForm = "OK") ∧
    (∀ (c : StatusCode) (tb : Option String), c ≠ .OK →
      (∀ m : String, m ≠ "" →
        Status.strForm ⟨c, some m, tb⟩ = c.pyName ++ ": " ++ m) ∧
      Status.strForm ⟨c, some "", tb⟩ = c.pyName ∧
      Status.strForm ⟨c, none, tb⟩ = c.pyName) := by
  refine ⟨⟨rfl, rfl, rfl⟩, ?_⟩
  intro c tb hc
  have hok : Status.ok ⟨c, some "", tb⟩ = false := statusCode_beq_ok_false hc
  have hok2 : ∀ m : Option String, Status.ok ⟨c, m, tb⟩ = false :=
    fun _ => statusCode_beq_ok_false hc
  refine ⟨?_, ?_, ?_⟩
  · intro m hm
    simp [Status.strForm, hok2, pyTruthyOptStr, hm]
  · simp [Status.strForm, hok, pyTruthyOptStr]
  · simp [Status.strForm, hok2, pyTruthyOptStr]

/-- C3 witness: the amended theorem applied at `INVALID_ARGUMENT` with
message `"bad"`. -/
theorem c3_status_strform_witness :
    Status.strForm ⟨.INVALID_ARGUMENT, some "bad", none⟩ =
      "INVALID_ARGUMENT: bad" :=
  (c3_status_strform_amended.2 .INVALID_ARGUMENT none (by decide)).1 "bad"
    (by decide)

/-- C2 counterexample: the claim says a `Status` second argument always gives
`ok() == false`, but constructing `StatusOr(int, Status())` from an OK
`Status` stores it and `ok()` is `true`. -/
theorem c2_statusor_ok_status_counterexample :
    StatusOr.init .intT (.status Status.default) =
      .ok ⟨.intT, .none, Status.default⟩ ∧
    StatusOr.isOk ⟨.intT, .none, Status.default⟩ = true := ⟨rfl, rfl⟩

/-- C2 (amended): a value argument that is an instance of the type tag, or
`None`, is stored with an OK status (`ok() = true`, `val()` the value); a
`Status` argument is stored with `val()` absent, and when that status is
non-OK, `ok() = false`; every constructed `StatusOr` satisfies the invariant
that a non-OK status implies the value slot is `None`; and
`StatusOr(int, None)` is OK with value `None`. -/
theorem c2_statusor_invariant_amended :
    (∀ (t : PyType) (v : PyVal), (pyIsInstance v t = true ∨ v = .none) →
      StatusOr.init t v = .ok ⟨t, v, Status.default⟩ ∧
      StatusOr.isOk ⟨t, v, Status.default⟩ = true) ∧
    (∀ (t : PyType) (st : Status),
      StatusOr.init t (.status st) = .ok ⟨t, .none, st⟩ ∧
      (st.ok = false → StatusOr.isOk ⟨t, .none, st⟩ = false)) ∧
    (∀ (t : PyType) (v : PyVal) (so : StatusOr),
      StatusOr.init t v = .ok so → so.isOk = false → so._val = .none) ∧
    (StatusOr.init .intT .none = .ok ⟨.intT, .none, Status.default⟩ ∧
      StatusOr.isOk ⟨.intT, .none, Status.default⟩ = true) := by
  refine ⟨?_, ?_, ?_, rfl, rfl⟩
  · intro t v hv
    rcases hv with hv | hv
    · cases v <;> simp_all [StatusOr.init, StatusOr.isOk, pyIsInstance, Status.default]
    · subst hv
      exact ⟨rfl, rfl⟩
  · intro t st
    exact ⟨rfl, fun h => by simpa [StatusOr.isOk, Status.ok] using h⟩
  · intro t v so hinit hnotok
    cases v with
    | status st =>
      simp only [StatusOr.init] at hinit
      cases hinit
      rfl
    | none =>
      simp [StatusOr.init] at hinit
      subst hinit
      simp [StatusOr.isOk, Status.default] at hnotok
    | int n =>
      simp only [StatusOr.init] at hinit
      split at hinit
      · simp at hinit
      · cases hinit
        simp [StatusOr.isOk, Status.default] at hnotok
    | str s =>
      simp only [StatusOr.init] at hinit
      split at hinit
      · simp at hinit
      · cases hinit
        simp [StatusOr.isOk, Status.default] at hnotok
    | boolean b =>
      simp only [StatusOr.init] at hinit
      split at hinit
      · simp at hinit
      · cases hinit
        simp [StatusOr.isOk, Status.default] at hnotok
    | float q =>
      simp only [StatusOr.init] at hinit
      split at hinit
      · simp at hinit
      · cases hinit
        simp [StatusOr.isOk, Status.default] at hnotok

/-- C2 witness: the amended theorem applied at `StatusOr(int, 3)` and at
`StatusOr(int, Status(NOT_FOUND))`. -/
theorem c2_statusor_invariant_witness :
    StatusOr.init .intT (.int 3) = .ok ⟨.intT, .int 3, Status.default⟩ ∧
    StatusOr.isOk ⟨.intT, .none, Status.from_status_code .NOT_FOUND none⟩ = false :=
  ⟨(c2_statusor_invariant_amended.1 .intT (.int 3) (Or.inl (by decide))).1,
    (c2_statusor_invariant_amended.2.1 .intT
      (Status.from_status_code .NOT_FOUND none)).2 (by decide)⟩

/-- C7 (confirmed): constructing a `StatusOr` from a non-`None`, non-`Status`
value whose runtime type is not an instance of the declared type tag
terminates the process (`sys.exit(1)`) with a diagnostic, rather than
returning an object or a recoverable error `Status`. -/
theorem c7_statusor_type_mismatch_fatal :
    ∀ (t : PyType) (v : PyVal), v ≠ .none → (∀ st, v ≠ .status st) →
      pyIsInstance v t = false →
      StatusOr.init t v =
        .fatalExit 1
          ("Expected value of type " ++ t.pyName ++ ", got " ++ v.typeName) := by
  intro t v hnone hstatus hinst
  cases v with
  | none => exact absurd rfl hnone
  | status st => exact absurd rfl (hstatus st)
  | int n => simp [StatusOr.init, hinst]
  | str s => simp [StatusOr.init, hinst]
  | boolean b => simp [StatusOr.init, hinst]
  | float q => simp [StatusOr.init, hinst]

/-- C7 witness: `StatusOr(int, "a string")` exits with code 1 and the
diagnostic of the source's `print`. -/
theorem c7_statusor_type_mismatch_witness :
    StatusOr.init .intT (.str "a string") =
      .fatalExit 1 "Expected value of type int, got str" :=
  c7_statusor_type_mismatch_fatal .intT (.str "a string") (by decide)
    (fun st => by simp) (by decide)

/-- C9 counterexample: an exception that was never raised has
`__traceback__ = None`, and `format_exception_traceback` then returns only
the exception line — `"ValueError: Test error\n"` — which does not begin with
the token `"Traceback"`. -/
theorem c9_traceback_counterexample :
    format_exception_traceback ⟨.ValueError, "Test error", none⟩ =
      "ValueError: Test error\n" ∧
    ∀ rest : String, "ValueError: Test error\n" ≠ "Traceback" ++ rest := by
  refine ⟨rfl, ?_⟩
  intro rest h
  have h2 := congrArg String.data h
  simp [String.data_append] at h2

/-- C9 (amended): for every exception whose `__traceback__` is present (one
that was actually raised), the text returned by `format_exception_traceback`
begins with the token `"Traceback"`; with no traceback the text is only the
exception's own description line. -/
theorem c9_traceback_amended :
    ∀ (e : PyException) (frames : List String), e.tb = some frames →
      ∃ rest, format_exception_traceback e = "Traceback" ++ rest := by
  intro e frames htb
  refine ⟨" (most recent call last):\n" ++
    joinStrings (frames ++ [excLine e.etype e.msg]), ?_⟩
  show joinStrings (pyFormatException e.etype e.msg e.tb) = _
  rw [htb]
  show "Traceback (most recent call last):\n" ++
    joinStrings (frames ++ [excLine e.etype e.msg]) = _
  have h : ("Traceback (most recent call last):\n" : String) =
      "Traceback" ++ " (most recent call last):\n" := by rfl
  rw [h]
  apply String.ext
  simp [String.data_append]

/-- C9 witness: the amended theorem applied to a raised `ValueError` with one
stack frame. -/
theorem c9_traceback_witness :
    ∃ rest,
      format_exception_traceback
        ⟨.ValueError, "Test error", some ["  File \"t.py\", line 1\n"]⟩ =
        "Traceback" ++ rest :=
  c9_traceback_amended ⟨.ValueError, "Test error", some ["  File \"t.py\", line 1\n"]⟩
    ["  File \"t.py\", line 1\n"] rfl

/-- C10 (confirmed): in debug mode, `ThreadingMutex.acquire` with a timeout
strictly greater than 0 terminates the process via `DCHECK_GREATER_THAN`
(whose guard fires exactly when the checked value IS greater than the bound),
and with any non-positive timeout — including the default `-1` — it proceeds
to acquire the underlying lock and returns that lock's result. -/
theorem c10_mutex_acquire_debug_guard :
    ∀ (lockRes blocking : Bool) (timeout : ℚ),
      (dcheckGreaterThanFires true timeout 0 = true ↔ timeout > 0) ∧
      (timeout > 0 →
        ThreadingMutex.acquire true lockRes blocking timeout =
          .fatalExit 1 (dcheckGreaterThanDiag 0)) ∧
      (timeout ≤ 0 →
        ThreadingMutex.acquire true lockRes blocking timeout =
          .lockResult lockRes) := by
  intro lockRes blocking timeout
  refine ⟨?_, ?_, ?_⟩
  · simp [dcheckGreaterThanFires]
  · intro h
    simp [ThreadingMutex.acquire, dcheckGreaterThanFires, h]
  · intro h
    simp [ThreadingMutex.acquire, dcheckGreaterThanFires, not_lt.mpr h]

/-- C10 witness: a positive timeout (`0.5` seconds) exits fatally; the
default timeout `-1` reaches the underlying lock. -/
theorem c10_mutex_acquire_debug_guard_witness :
    ThreadingMutex.acquire true true true (1 / 2) =
      .fatalExit 1 (dcheckGreaterThanDiag 0) ∧
    ThreadingMutex.acquire true true true (-1) = .lockResult true :=
  ⟨(c10_mutex_acquire_debug_guard true true (1 / 2)).2.1 (by norm_num),
    (c10_mutex_acquire_debug_guard true true (-1)).2.2 (by norm_num)⟩

/-- C1 (confirmed): `Logger.log` on an empty handler list returns a Status
with code `NOT_FOUND`; on a non-empty list it invokes `handle()` in list
order and returns the first non-OK status, never invoking the handlers after
the failing one (the invoked ids are exactly the prefix up to and including
it); if every handler returns OK, it returns an OK status after invoking them
all. -/
theorem c1_logger_log_dispatch :
    (∀ (sev : LogSeverity) (msg : String),
      Logger.log [] sev msg = (noHandlersStatus, []) ∧
      noHandlersStatus.status_code = .NOT_FOUND) ∧
    (∀ (l : List LogHandler) (sev : LogSeverity) (msg : String), l ≠ [] →
      (∀ h ∈ l, (h.handleFn sev msg).ok = true) →
      Logger.log l sev msg = (Status.default, l.map (·.hid)) ∧
      Status.default.ok = true) ∧
    (∀ (pre : List LogHandler) (f : LogHandler) (post : List LogHandler)
        (sev : LogSeverity) (msg : String),
      (∀ h ∈ pre, (h.handleFn sev msg).ok = true) →
      (f.handleFn sev msg).ok = false →
      Logger.log (pre ++ f :: post) sev msg =
        (f.handleFn sev msg, pre.map (·.hid) ++ [f.hid])) := by
  refine ⟨fun _ _ => ⟨rfl, rfl⟩, ?_, ?_⟩
  · intro l sev msg hne hall
    have hemp : l.isEmpty = false := by
      cases l with
      | nil => exact absurd rfl hne
      | cons h rest => rfl
    refine ⟨?_, rfl⟩
    simp only [Logger.log, hemp, Bool.false_eq_true, if_false]
    exact logDispatch_all_ok sev msg l hall
  · intro pre f post sev msg hall hf
    have hemp : (pre ++ f :: post).isEmpty = false := by
      cases pre <;> rfl
    simp only [Logger.log, hemp, Bool.false_eq_true, if_false]
    exact logDispatch_first_fail sev msg pre f post hall hf

/-- C1 witness: a logger whose first handler fails with `INTERNAL` and whose
second succeeds returns the first handler's status, and only the first
handler (id 1) is invoked. -/
theorem c1_logger_log_dispatch_witness :
    Logger.log
      [⟨1, fun _ _ => Status.from_status_code .INTERNAL (some "boom"),
        Status.default⟩,
       ⟨2, fun _ _ => Status.default, Status.default⟩] .INFO "hello" =
      (Status.from_status_code .INTERNAL (some "boom"), [1]) :=
  c1_logger_log_dispatch.2.2 []
    ⟨1, fun _ _ => Status.from_status_code .INTERNAL (some "boom"), Status.default⟩
    [⟨2, fun _ _ => Status.default, Status.default⟩] .INFO "hello"
    (by simp) rfl

/-- C5 counterexample: the claim says `close_all_handlers` closes every
handler and then empties the list, but a handler whose `close()` fails makes
the loop return early: with a failing first handler (id 7) and a healthy
second one (id 8), only id 7 is closed and the handler list is left intact
(two entries), not emptied. -/
theorem c5_close_all_counterexample :
    Logger.close_all_handlers
      [⟨7, fun _ _ => Status.default, Status.from_status_code .INTERNAL none⟩,
       ⟨8, fun _ _ => Status.default, Status.default⟩] =
      (Status.from_status_code .INTERNAL none, [7],
        [⟨7, fun _ _ => Status.default, Status.from_status_code .INTERNAL none⟩,
         ⟨8, fun _ _ => Status.default, Status.default⟩]) ∧
    ([⟨7, fun _ _ => Status.default, Status.from_status_code .INTERNAL none⟩,
      ⟨8, fun _ _ => Status.default, Status.default⟩] : List LogHandler) ≠ [] := by
  exact ⟨rfl, by simp⟩

/-- C5 (amended): when every handler's `close()` succeeds,
`close_all_handlers` closes each handler in order and empties the list; a
failing `close()` is returned immediately, the remaining handlers are not
closed and the list is left unchanged. The logger itself survives either
way: `add_handler` on the emptied list accepts a new handler. -/
theorem c5_close_all_amended :
    (∀ l : List LogHandler, (∀ h ∈ l, h.closeRes.ok = true) →
      Logger.close_all_handlers l = (Status.default, l.map (·.hid), [])) ∧
    (∀ (pre : List LogHandler) (f : LogHandler) (post : List LogHandler),
      (∀ h ∈ pre, h.closeRes.ok = true) → f.closeRes.ok = false →
      Logger.close_all_handlers (pre ++ f :: post) =
        (f.closeRes, pre.map (·.hid) ++ [f.hid], pre ++ f :: post)) ∧
    (∀ h : LogHandler, Logger.add_handler [] h = ([h], Status.default)) := by
  refine ⟨?_, ?_, fun h => rfl⟩
  · intro l hall
    have hloop := closeAllLoop_all_ok l hall
    simp [Logger.close_all_handlers, hloop, Status.default, Status.ok]
  · intro pre f post hall hf
    have hloop := closeAllLoop_first_fail pre f post hall hf
    simp [Logger.close_all_handlers, hloop, hf]

/-- C5 witness: the amended theorem applied to a two-handler list whose
closes both succeed, and a fresh add afterwards. -/
theorem c5_close_all_amended_witness :
    Logger.close_all_handlers
      [⟨3, fun _ _ => Status.default, Status.default⟩,
       ⟨4, fun _ _ => Status.default, Status.default⟩] =
      (Status.default, [3, 4], []) ∧
    Logger.add_handler [] ⟨5, fun _ _ => Status.default, Status.default⟩ =
      ([⟨5, fun _ _ => Status.default, Status.default⟩], Status.default) :=
  ⟨c5_close_all_amended.1
      [⟨3, fun _ _ => Status.default, Status.default⟩,
       ⟨4, fun _ _ => Status.default, Status.default⟩] (by simp [Status.default, Status.ok]),
    c5_close_all_amended.2.2 ⟨5, fun _ _ => Status.default, Status.default⟩⟩

/-- C6 (confirmed): `add_handler` is idempotent — adding a handler that is
already present leaves the list unchanged (and a list holding the handler at
most once holds it exactly once afterwards) — and `remove_handler` on an
absent handler is a no-op returning an OK status. -/
theorem c6_add_remove_handler :
    (∀ (l : List LogHandler) (h : LogHandler),
      Logger.add_handler (Logger.add_handler l h).1 h =
        ((Logger.add_handler l h).1, Status.default)) ∧
    (∀ (l : List LogHandler) (h : LogHandler),
      l.countP (fun g => g.hid == h.hid) ≤ 1 →
      (Logger.add_handler l h).1.countP (fun g => g.hid == h.hid) = 1) ∧
    (∀ (l : List LogHandler) (h : LogHandler), hasHandler l h = false →
      Logger.remove_handler l h = (l, Status.default) ∧
      Status.default.ok = true) := by
  refine ⟨?_, ?_, ?_⟩
  · intro l h
    by_cases hm : hasHandler l h
    · simp [Logger.add_handler, hm]
    · simp only [Logger.add_handler, hm, Bool.false_eq_true, if_false]
      have : hasHandler (l ++ [h]) h = true := by
        simp [hasHandler]
      simp [this]
  · intro l h hle
    by_cases hm : hasHandler l h
    · have hpos : 0 < l.countP (fun g => g.hid == h.hid) := by
        rw [List.countP_pos_iff]
        simpa [hasHandler, List.any_eq_true] using hm
      have : l.countP (fun g => g.hid == h.hid) = 1 := le_antisymm hle hpos
      simp [Logger.add_handler, hm, this]
    · have hzero : l.countP (fun g => g.hid == h.hid) = 0 := by
        rw [List.countP_eq_zero]
        intro g hg
        have hne : ∀ x ∈ l, ¬x.hid = h.hid := by
          simpa [hasHandler, List.any_eq_true] using hm
        simpa using hne g hg
      simp [Logger.add_handler, hm, List.countP_append, hzero]
  · intro l h hm
    refine ⟨?_, rfl⟩
    simp [Logger.remove_handler, hm]

/-- C6 witness: the theorem applied to a one-handler list — re-adding keeps
one entry; removing an absent handler is an OK no-op. -/
theorem c6_add_remove_handler_witness :
    (Logger.add_handler [] ⟨9, fun _ _ => Status.default, Status.default⟩).1.countP
      (fun g => g.hid == 9) = 1 ∧
    Logger.remove_handler [] ⟨9, fun _ _ => Status.default, Status.default⟩ =
      ([], Status.default) :=
  ⟨c6_add_remove_handler.2.1 [] ⟨9, fun _ _ => Status.default, Status.default⟩
      (by simp),
    (c6_add_remove_handler.2.2 [] ⟨9, fun _ _ => Status.default, Status.default⟩
      rfl).1⟩

namespace Kern

theorem tableKeysNodup : (EXCEPTION_TO_STATUS_CODE.map Prod.fst).Nodup := by
  decide

theorem exactLookup_of_mem :
    ∀ (l : List (ExcType × StatusCode)), (l.map Prod.fst).Nodup →
      ∀ (t : ExcType) (c : StatusCode), (t, c) ∈ l →
        (l.find? (fun p => p.1 == t)).map (·.2) = some c := by
  intro l
  induction l with
  | nil =>
    intro _ t c h
    simp at h
  | cons p rest ih =>
    intro hnd t c hmem
    obtain ⟨a, b⟩ := p
    rw [List.map_cons] at hnd
    have hnd2 := List.nodup_cons.mp hnd
    rcases List.mem_cons.mp hmem with heq | hmem2
    · obtain ⟨rfl, rfl⟩ := Prod.mk.injEq .. ▸ heq.symm
      simp [List.find?]
    · have hkey : a ≠ t := by
        intro he
        subst he
        exact hnd2.1 (List.mem_map.mpr ⟨(a, c), hmem2, rfl⟩)
      have hbeq : ((a, b).1 == t) = false := beq_eq_false_iff_ne.mpr hkey
      rw [List.find?_cons_of_neg _ (by simp [hbeq])]
      exact ih hnd2.2 t c hmem2

end Kern

/-- C4 (confirmed): an exception whose exact runtime type is a key of
`EXCEPTION_TO_STATUS_CODE` maps to exactly the code of that entry; an
exception whose type is absent from the table maps to the code of the first
entry, in declaration order, whose type it is an instance of; and to
`UNKNOWN` when no entry matches. -/
theorem c4_get_status_code (t : ExcType) :
    (∀ c : StatusCode, (t, c) ∈ EXCEPTION_TO_STATUS_CODE →
      get_status_code_for_exception t = c) ∧
    ((∀ c : StatusCode, (t, c) ∉ EXCEPTION_TO_STATUS_CODE) →
      (∀ p : ExcType × StatusCode,
        EXCEPTION_TO_STATUS_CODE.find? (fun q => isInstanceOf t q.1) = some p →
        get_status_code_for_exception t = p.2) ∧
      (EXCEPTION_TO_STATUS_CODE.find? (fun q => isInstanceOf t q.1) = none →
        get_status_code_for_exception t = .UNKNOWN)) := by
  constructor
  · intro c hmem
    have h := exactLookup_of_mem EXCEPTION_TO_STATUS_CODE tableKeysNodup t c hmem
    have h2 : exactLookup t = some c := h
    simp [get_status_code_for_exception, h2]
  · intro hnotin
    have hfindnone :
        EXCEPTION_TO_STATUS_CODE.find? (fun p => p.1 == t) = none := by
      rw [List.find?_eq_none]
      intro x hx hbeq
      obtain ⟨a, b⟩ := x
      have ha : a = t := by simpa using hbeq
      subst ha
      exact hnotin b hx
    have hnone : exactLookup t = none := by
      unfold exactLookup
      rw [hfindnone]
      rfl
    constructor
    · intro p hp
      simp [get_status_code_for_exception, hnone, hp]
    · intro hfind
      simp [get_status_code_for_exception, hnone, hfind]

/-- C4 witness: `ValueError` is in the table and maps to `VALUE_ERROR`; a
custom direct subclass of `ValueError` is absent from the table and falls
back to the `ValueError` entry; a custom direct subclass of `Exception`
matches no entry and maps to `UNKNOWN`. -/
theorem c4_get_status_code_witness :
    get_status_code_for_exception .ValueError = .VALUE_ERROR ∧
    get_status_code_for_exception .CustomValueError = .VALUE_ERROR ∧
    get_status_code_for_exception .CustomError = .UNKNOWN :=
  ⟨(c4_get_status_code .ValueError).1 .VALUE_ERROR (by decide),
    ((c4_get_status_code .CustomValueError).2 (by decide)).1
      (.ValueError, .VALUE_ERROR) (by decide),
    ((c4_get_status_code .CustomError).2 (by decide)).2 (by decide)⟩

namespace Kern

theorem hasHandler_fresh (l : List LogHandler) (h : LogHandler)
    (hfresh : ∀ g ∈ l, g.hid < h.hid) : hasHandler l h = false := by
  simp only [hasHandler, List.any_eq_false]
  intro g hg
  simp [Nat.ne_of_lt (hfresh g hg)]

theorem get_status_code_ne_ok :
    ∀ t : ExcType, get_status_code_for_exception t ≠ .OK := by
  decide

end Kern

/-- C8 counterexample: the claim says a second initialization call does not
attach duplicate handlers, but `init_thread_specific_kern_logging` has no
initialized-flag guard: called twice from a fresh state it attaches a second
console handler, leaving two handlers on the thread logger. -/
theorem c8_thread_init_duplicate_counterexample :
    (init_thread_specific_kern_logging LogModuleState.start "t" ""
        none).2.threadHandlers.length = 1 ∧
    (init_thread_specific_kern_logging
        (init_thread_specific_kern_logging LogModuleState.start "t" "" none).2
        "t" "" none).2.threadHandlers.length = 2 := ⟨rfl, rfl⟩

/-- C8 (amended): `init_kern_logging` is idempotent at the process level — a
second call returns OK and changes nothing, because the module-level flag
guards re-entry — and attaches a console handler first, then a file handler
only when a non-empty directory is supplied; a directory-creation failure is
returned immediately with the flag still unset, so a later call retries.
`init_thread_specific_kern_logging`, by contrast, has no flag: every call
attaches a fresh console handler to the thread logger (duplicates on
repeated calls).  Handler ids below `nextId` state the freshness of the id
counter. -/
theorem c8_init_logging_amended :
    (∀ (st : LogModuleState) (pn dir : String) (mf : Option PyException),
      st.initialized = true →
      init_kern_logging st pn dir mf = (Status.default, st)) ∧
    (∀ (st : LogModuleState) (pn : String),
      st.initialized = false →
      (∀ h ∈ st.defaultHandlers, h.hid < st.nextId) →
      init_kern_logging st pn "" none =
        (Status.default,
          ⟨true, st.defaultHandlers ++ [mkConsoleHandler st.nextId],
            st.threadHandlers, st.nextId + 1⟩)) ∧
    (∀ (st : LogModuleState) (pn dir : String),
      st.initialized = false → dir ≠ "" →
      (∀ h ∈ st.defaultHandlers, h.hid < st.nextId) →
      init_kern_logging st pn dir none =
        (Status.default,
          ⟨true,
            st.defaultHandlers ++ [mkConsoleHandler st.nextId,
              mkFileHandler (st.nextId + 1) (dir ++ "/" ++ pn ++ ".log")],
            st.threadHandlers, st.nextId + 2⟩)) ∧
    (∀ (st : LogModuleState) (pn dir : String) (e : PyException),
      st.initialized = false → dir ≠ "" →
      (init_kern_logging st pn dir (some e)).1.ok = false ∧
      (init_kern_logging st pn dir (some e)).2.initialized = false) ∧
    (∀ (st : LogModuleState) (name : String),
      (∀ h ∈ st.threadHandlers, h.hid < st.nextId) →
      init_thread_specific_kern_logging st name "" none =
        (Status.default,
          ⟨st.initialized, st.defaultHandlers,
            st.threadHandlers ++ [mkConsoleHandler st.nextId],
            st.nextId + 1⟩)) := by
  refine ⟨?_, ?_, ?_, ?_, ?_⟩
  · intro st pn dir mf hflag
    simp [init_kern_logging, hflag]
  · intro st pn hflag hfresh
    have hh : hasHandler st.defaultHandlers (mkConsoleHandler st.nextId) = false :=
      hasHandler_fresh _ _ hfresh
    simp [init_kern_logging, hflag, Logger.add_handler, hh, Status.default,
      Status.ok]
  · intro st pn dir hflag hdir hfresh
    have hh : hasHandler st.defaultHandlers (mkConsoleHandler st.nextId) = false :=
      hasHandler_fresh _ _ hfresh
    have hh2 : hasHandler (st.defaultHandlers ++ [mkConsoleHandler st.nextId])
        (mkFileHandler (st.nextId + 1) (dir ++ "/" ++ pn ++ ".log")) = false := by
      refine hasHandler_fresh _ _ ?_
      intro g hg
      rcases List.mem_append.mp hg with hg2 | hg2
      · exact Nat.lt_succ_of_lt (hfresh g hg2)
      · simp at hg2
        subst hg2
        exact Nat.lt_succ_self _
    simp [init_kern_logging, hflag, hdir, Logger.add_handler, hh, hh2,
      Status.default, Status.ok]
  · intro st pn dir e hflag hdir
    by_cases hh : hasHandler st.defaultHandlers (mkConsoleHandler st.nextId)
    · constructor <;>
        simp [init_kern_logging, hflag, hdir, Logger.add_handler, hh,
          Status.default, Status.ok, makedirsFailStatus,
          statusCode_beq_ok_false (get_status_code_ne_ok e.etype)]
    · constructor <;>
        simp [init_kern_logging, hflag, hdir, Logger.add_handler, hh,
          Status.default, Status.ok, makedirsFailStatus,
          statusCode_beq_ok_false (get_status_code_ne_ok e.etype)]
  · intro st name hfresh
    have hh : hasHandler st.threadHandlers (mkConsoleHandler st.nextId) = false :=
      hasHandler_fresh _ _ hfresh
    simp [init_thread_specific_kern_logging, Logger.add_handler, hh,
      Status.default, Status.ok]

/-- C8 witness: the amended theorem applied to the fresh process state — one
init with a directory attaches console (id 0) then file (id 1) and sets the
flag; an immediate second call is a no-op; a thread-specific init from the
fresh state attaches a console handler. -/
theorem c8_init_logging_amended_witness :
    init_kern_logging LogModuleState.start "app" "logs" none =
      (Status.default,
        ⟨true, [mkConsoleHandler 0, mkFileHandler 1 "logs/app.log"], [], 2⟩) ∧
    init_kern_logging
        ⟨true, [mkConsoleHandler 0, mkFileHandler 1 "logs/app.log"], [], 2⟩
        "app" "logs" none =
      (Status.default,
        ⟨true, [mkConsoleHandler 0, mkFileHandler 1 "logs/app.log"], [], 2⟩) ∧
    init_thread_specific_kern_logging LogModuleState.start "t" "" none =
      (Status.default, ⟨false, [], [mkConsoleHandler 0], 1⟩) := by
  refine ⟨?_, ?_, ?_⟩
  · have h := c8_init_logging_amended.2.2.1 LogModuleState.start "app" "logs"
      rfl (by simp) (by simp [LogModuleState.start])
    simpa [LogModuleState.start] using h
  · exact c8_init_logging_amended.1
      ⟨true, [mkConsoleHandler 0, mkFileHandler 1 "logs/app.log"], [], 2⟩
      "app" "logs" none rfl
  · have h := c8_init_logging_amended.2.2.2.2 LogModuleState.start "t"
      (by simp [LogModuleState.start])
    simpa [LogModuleState.start] using h
